import Mathlib

set_option maxHeartbeats 1000000

/-!
Verification of the iterative login state machine of the ClooneyAI
repository.  The definitions below are a shallow embedding of
`src/workflows/state.py`, `src/workflows/nodes.py`,
`src/workflows/clone_workflow.py` and `src/services/openai_service.py`.
Browser actions and completion-service calls are modelled by oracles: an
`Except String _` value records whether the corresponding Python call
returned normally or raised an exception with a given message.
-/

/-- Structured advisor response: the JSON object obtained from
`json.loads` on the completion content, as read with `.get` in
`src/workflows/nodes.py`.  An absent key is `none`. -/
structure Guidance where
  selector : Option String
  confidence : Option String
  reasoning : Option String
  logged_in : Option Bool
  note : Option String
deriving DecidableEq

/-- Guidance dict with no keys. -/
def emptyGuidance : Guidance := ⟨none, none, none, none, none⟩

/-- Browser session dict stored by the `init` branch of `login_node`:
playwright, browser, context and page handles (opaque naturals here). -/
structure BrowserSession where
  playwright : Nat
  browser : Nat
  context : Nat
  page : Option Nat
deriving DecidableEq

/-- The LangGraph state dict `CloneState` from `src/workflows/state.py`. -/
structure CloneState where
  url : String
  status : String
  error : Option String
  current_step : String
  iteration_count : Nat
  last_action : Option String
  ai_guidance : Option Guidance
  last_error : Option String
  step_retry_count : Nat
  email : Option String
  password : Option String
  login_successful : Option Bool
  login_url : Option String
  login_screenshot : Option String
  total_tokens_used : Nat
  browser_session : Option BrowserSession
  current_dom : Option String
  current_css : Option String
  current_page_url : Option String
  dom : Option String
  dom_simplified : Option String
  css : Option String
  output_file : Option String
  screenshots : Option (List (String × String))
deriving DecidableEq

/-- Result of the browser effects of the `init` branch: the stored session
and the captured page content, css and url. -/
structure InitData where
  session : BrowserSession
  dom : String
  css : String
  pageUrl : String

/-- Environment for one invocation of `login_node`: the outcome of each
browser effect the invocation may perform.  `Except.error m` models the
playwright call raising an exception whose message is `m`.  `snapshot` is
the `page.content` and css and url capture performed after an action. -/
structure LoginOracle where
  initNav : Except String InitData
  fill : Except String Unit
  focusType : Except String Unit
  click : Except String Unit
  snapshot : Except String (String × String × String)
  screenshot : Except String Unit

/-- Environment for one invocation of `openai_node`: the raw completion
(content string and token count, or a raised API error), the behaviour of
`json.loads` on a content string, the password-locator count used by the
`find_email_continue` pre-check, and `page.title`. -/
structure AIOracle where
  api : Except String (String × Nat)
  parse : String → Except String Guidance
  passwordCount : Except String Nat
  title : Except String String

/-- Reads the selector entry of the guidance dict, `none` when the guidance
itself is absent, mirroring `state.get` followed by `.get` in the source. -/
def guidance_selector (g : Option Guidance) : Option String :=
  match g with
  | none => none
  | some g => g.selector

/-- Truthiness of `browser_session and browser_session.get("page")`. -/
def has_page (bs : Option BrowserSession) : Bool :=
  match bs with
  | none => false
  | some b => b.page.isSome

/-- A single-quote character, used inside error messages. -/
def squote : String := String.singleton (Char.ofNat 39)

/-- The `last_error` hint recorded when a selector fails and the flow routes
back to the locating step. -/
def retry_hint (selector errMsg : String) : String :=
  "Previous selector " ++ squote ++ selector ++ squote ++ " failed: " ++ errMsg

/-- State update shared by the successful action branches of `login_node`:
advance the step, bump the iteration count, record the action and store the
freshly captured dom, css and url. -/
def after_action_update (s : CloneState) (nextStep action : String)
    (d : String × String × String) : CloneState :=
  { s with
    current_step := nextStep,
    iteration_count := s.iteration_count + 1,
    last_action := some action,
    current_dom := some d.1,
    current_css := some d.2.1,
    current_page_url := some d.2.2 }

/-- The state returned when the browser session is missing. -/
def session_lost (s : CloneState) : CloneState :=
  { s with current_step := "failed", error := some "Browser session lost" }

/-- The `init` branch of `login_node`: launch, navigate and capture the
page; on success advance to `find_email`.  A raised exception propagates to
the outer handler. -/
def init_branch (s : CloneState) (o : LoginOracle) : Except String CloneState :=
  match o.initNav with
  | .error e => .error e
  | .ok d => .ok { s with
    current_step := "find_email",
    iteration_count := s.iteration_count + 1,
    last_action := some "Initialized browser and loaded login page",
    browser_session := some d.session,
    current_dom := some d.dom,
    current_css := some d.css,
    current_page_url := some d.pageUrl,
    error := none }

/-- The code after the email field was filled (or typed): wait, re-capture
the page and advance to `find_email_continue`.  Reached both after a
successful fill and after a successful keyboard fallback. -/
def enter_email_success (s : CloneState) (o : LoginOracle) (selector : String) :
    Except String CloneState :=
  match o.snapshot with
  | .error e => .error e
  | .ok d => .ok (after_action_update s "find_email_continue"
      ("Entered email using selector: " ++ selector) d)

/-- The `enter_email` branch of `login_node`: fill the email field; on fill
failure retry via `find_email` while `step_retry_count` is below 3,
otherwise attempt the keyboard fallback before failing. -/
def enter_email_branch (s : CloneState) (o : LoginOracle) : Except String CloneState :=
  match guidance_selector s.ai_guidance with
  | none => .ok { s with current_step := "failed", error := some "No email selector from AI" }
  | some selector =>
    match o.fill with
    | .ok _ => enter_email_success s o selector
    | .error errMsg =>
      if s.step_retry_count < 3 then
        .ok { s with
          current_step := "find_email",
          last_error := some (retry_hint selector errMsg),
          step_retry_count := s.step_retry_count + 1,
          iteration_count := s.iteration_count + 1 }
      else
        match o.focusType with
        | .ok _ => enter_email_success s o selector
        | .error e2 =>
          .ok { s with
      current_step := "failed",
      error := some ("Failed to enter email after 3 attempts: " ++ e2) }

/-- The `click_email_continue` branch of `login_node`: click the continue
button; on success clear `last_error` and reset the retry count; on click
failure retry via `find_email_continue` while below the cap. -/
def click_email_continue_branch (s : CloneState) (o : LoginOracle) : Except String CloneState :=
  match guidance_selector s.ai_guidance with
  | none => .ok { s with
      current_step := "failed",
      error := some "No continue button selector from AI" }
  | some selector =>
    match o.click with
    | .ok _ =>
      match o.snapshot with
      | .error e => .error e
      | .ok d => .ok { after_action_update s "find_password"
            ("Clicked continue button: " ++ selector) d with
          last_error := none,
          step_retry_count := 0 }
    | .error errMsg =>
      if s.step_retry_count < 3 then
        .ok { s with
          current_step := "find_email_continue",
          last_error := some (retry_hint selector errMsg),
          step_retry_count := s.step_retry_count + 1,
          iteration_count := s.iteration_count + 1 }
      else
        .ok { s with
      current_step := "failed",
      error := some ("Failed to click continue button after 3 attempts: " ++ errMsg) }

/-- The `enter_password` branch of `login_node`: fill the password field,
falling back to focus-and-type on failure; the fallback is not wrapped in
its own handler, so its exception propagates to the outer handler. -/
def enter_password_success (s : CloneState) (o : LoginOracle) (selector : String) :
    Except String CloneState :=
  match o.snapshot with
  | .error e => .error e
  | .ok d => .ok (after_action_update s "find_submit"
      ("Entered password using selector: " ++ selector) d)

/-- Dispatch of the `enter_password` branch on the fill outcome. -/
def enter_password_branch (s : CloneState) (o : LoginOracle) : Except String CloneState :=
  match guidance_selector s.ai_guidance with
  | none => .ok { s with
      current_step := "failed",
      error := some "No password selector from AI" }
  | some selector =>
    match o.fill with
    | .ok _ => enter_password_success s o selector
    | .error _ =>
      match o.focusType with
      | .error e => .error e
      | .ok _ => enter_password_success s o selector

/-- The `click_submit` branch of `login_node`: click the submit button; a
click failure is immediately fatal; on success capture the page and a
screenshot and advance to `verify_login`. -/
def click_submit_branch (s : CloneState) (o : LoginOracle) : Except String CloneState :=
  match guidance_selector s.ai_guidance with
  | none => .ok { s with
      current_step := "failed",
      error := some "No submit button selector from AI" }
  | some selector =>
    match o.click with
    | .error e => .ok { s with
      current_step := "failed",
      error := some ("Failed to click submit button: " ++ e) }
    | .ok _ =>
      match o.snapshot with
      | .error e => .error e
      | .ok d =>
        match o.screenshot with
        | .error e => .error e
        | .ok _ => .ok { after_action_update s "verify_login"
              ("Clicked submit button: " ++ selector) d with
            login_screenshot := some "output/screenshots/after_login_click.png" }

/-- Body of `login_node` inside the outer try: dispatch on the current step
after checking the browser session, as in `src/workflows/nodes.py`. -/
def login_node_body (s : CloneState) (o : LoginOracle) : Except String CloneState :=
  if s.current_step = "init" then init_branch s o
  else if has_page s.browser_session = false then .ok (session_lost s)
  else if s.current_step = "enter_email" then enter_email_branch s o
  else if s.current_step = "click_email_continue" then click_email_continue_branch s o
  else if s.current_step = "enter_password" then enter_password_branch s o
  else if s.current_step = "click_submit" then click_submit_branch s o
  else .ok { s with
      current_step := "failed",
      error := some ("Unknown step: " ++ s.current_step) }

/-- The `login_node` step function: its body wrapped in the outer exception
handler that converts any escaped exception into a failed state. -/
def login_node (s : CloneState) (o : LoginOracle) : CloneState :=
  match login_node_body s o with
  | .ok t => t
  | .error e => { s with
      current_step := "failed",
      error := some ("Login node error: " ++ e) }

/-- One advisor call of `openai_node`: the raw completion (content and token
count) followed by `json.loads` on the content.  The token count is only
available when parsing succeeds, because `tokens_used` is incremented after
`json.loads` in the source. -/
def ai_call (o : AIOracle) : Except String (Guidance × Nat) :=
  match o.api with
  | .error e => .error e
  | .ok r =>
    match o.parse r.1 with
    | .error e => .error e
    | .ok g => .ok (g, r.2)

/-- Common shape of the four element-finding branches of `openai_node`: on
success store the guidance, advance to the next step and add the call's
tokens to the running total; any exception is caught by the branch handler,
which returns a failed state naming the step, with the total unchanged. -/
def ai_find_result (s : CloneState) (o : AIOracle) (stepName nextStep : String) : CloneState :=
  match ai_call o with
  | .ok gt =>
    { s with
      current_step := nextStep,
      ai_guidance := some gt.1,
      total_tokens_used := s.total_tokens_used + gt.2 }
  | .error e =>
    { s with
      current_step := "failed",
      error := some ("AI analysis failed for " ++ stepName ++ ": " ++ e) }

/-- The password-field pre-check of the `find_email_continue` branch: count
password inputs on the live page, ignoring any exception. -/
def password_already_visible (s : CloneState) (o : AIOracle) : Bool :=
  if has_page s.browser_session then
    match o.passwordCount with
    | .ok n => decide (0 < n)
    | .error _ => false
  else false

/-- The `find_email_continue` branch of `openai_node`: short-circuit to
`find_password` when a password field is already visible, otherwise ask the
advisor for the continue button. -/
def find_email_continue_result (s : CloneState) (o : AIOracle) : CloneState :=
  if password_already_visible s o then
    { s with
      current_step := "find_password",
      ai_guidance := some { emptyGuidance with note := some "Password field already visible" } }
  else ai_find_result s o "find_email_continue" "click_email_continue"

/-- Printable text of the reasoning entry; a missing key prints as `None`
inside the Python f-string. -/
def reasoning_text (g : Guidance) : String :=
  match g.reasoning with
  | some r => r
  | none => "None"

/-- The effectful part of the `verify_login` branch covered by its handler:
read the page title when a session is present, then make the advisor call. -/
def verify_call (s : CloneState) (o : AIOracle) : Except String (Guidance × Nat) :=
  match (if has_page s.browser_session then o.title else .ok "Unknown") with
  | .error e => .error e
  | .ok _ => ai_call o

/-- The `verify_login` branch of `openai_node`: route on the verdict —
completed when logged in, re-check on low confidence, failed otherwise. -/
def verify_login_result (s : CloneState) (o : AIOracle) : CloneState :=
  match verify_call s o with
  | .error e =>
    { s with
      current_step := "failed",
      error := some ("AI analysis failed for verify_login: " ++ e) }
  | .ok gt =>
    let tokens := s.total_tokens_used + gt.2
    if gt.1.logged_in = some true then
      { s with
      current_step := "completed",
        ai_guidance := some gt.1,
        total_tokens_used := tokens,
        login_successful := some true,
        login_url := s.current_page_url,
        status := "logged_in" }
    else if gt.1.confidence = some "low" then
      { s with
      current_step := "verify_login",
        ai_guidance := some gt.1,
        total_tokens_used := tokens }
    else
      { s with
      current_step := "failed",
      ai_guidance := some gt.1,
        total_tokens_used := tokens,
        login_successful := some false,
        error := some ("Login verification failed: " ++ reasoning_text gt.1),
        status := "login_failed" }

/-- Body of `openai_node` inside the outer try: dispatch on the current
step.  The unknown-step branch records an error without changing the step. -/
def openai_node_body (s : CloneState) (o : AIOracle) : Except String CloneState :=
  if s.current_step = "find_email" then .ok (ai_find_result s o "find_email" "enter_email")
  else if s.current_step = "find_email_continue" then .ok (find_email_continue_result s o)
  else if s.current_step = "find_password" then
    .ok (ai_find_result s o "find_password" "enter_password")
  else if s.current_step = "find_submit" then
    .ok (ai_find_result s o "find_submit" "click_submit")
  else if s.current_step = "verify_login" then .ok (verify_login_result s o)
  else .ok { s with error := some ("Unknown step for AI analysis: " ++ s.current_step) }

/-- The `openai_node` step function: its body wrapped in the outer exception
handler that converts any escaped exception into a failed state. -/
def openai_node (s : CloneState) (o : AIOracle) : CloneState :=
  match openai_node_body s o with
  | .ok t => t
  | .error e => { s with
      current_step := "failed",
      error := some ("AI analysis error: " ++ e) }

/-- Steps routed to the `openai` node by `should_continue`. -/
def ai_steps : List String :=
  ["find_email", "find_email_continue", "find_password", "find_submit", "verify_login"]

/-- Steps routed to the `login` node by `should_continue`. -/
def browser_steps : List String :=
  ["init", "enter_email", "click_email_continue", "enter_password", "click_submit"]

/-- The routing function of `src/workflows/clone_workflow.py`. -/
def should_continue (s : CloneState) : String :=
  if 10 ≤ s.iteration_count then "end"
  else if s.current_step = "completed" then "end"
  else if s.current_step = "failed" then "end"
  else if s.current_step ∈ ai_steps then "openai"
  else if s.current_step ∈ browser_steps then "login"
  else "end"

/-- The driving loop of the compiled graph: dispatch with `should_continue`
and run the chosen node, with fuel to keep the recursion well founded and
per-dispatch oracle streams. -/
def run_loop (lo : Nat → LoginOracle) (ao : Nat → AIOracle) :
    Nat → Nat → CloneState → CloneState
  | 0, _, s => s
  | fuel + 1, k, s =>
    if should_continue s = "openai" then run_loop lo ao fuel (k + 1) (openai_node s (ao k))
    else if should_continue s = "login" then run_loop lo ao fuel (k + 1) (login_node s (lo k))
    else s

/-- The initial state built in `src/main.py`. -/
def initial_state (url : String) (email password : Option String) : CloneState :=
  { url := url, status := "initialized", error := none, current_step := "init",
    iteration_count := 0, last_action := none, ai_guidance := none, last_error := none,
    step_retry_count := 0, email := email, password := password,
    login_successful := none, login_url := none, login_screenshot := none,
    total_tokens_used := 0, browser_session := none, current_dom := none,
    current_css := none, current_page_url := none, dom := none, dom_simplified := none,
    css := none, output_file := none, screenshots := none }

/-- States of the compiled graph: the initial state, then node applications
along the edges chosen by `should_continue` (the START edge runs the login
node, which `should_continue` also selects on the initial state). -/
inductive Reachable (url : String) (email password : Option String) : CloneState → Prop
  | base : Reachable url email password (initial_state url email password)
  | stepLogin {s : CloneState} (lo : LoginOracle) :
      Reachable url email password s → should_continue s = "login" →
      Reachable url email password (login_node s lo)
  | stepOpenai {s : CloneState} (ao : AIOracle) :
      Reachable url email password s → should_continue s = "openai" →
      Reachable url email password (openai_node s ao)

/-- Result dict of `OpenAIService.identify_login_elements` in
`src/services/openai_service.py`. -/
structure ServiceResult where
  success : Bool
  error : Option String
  data : Option Guidance
  tokens_used : Nat
deriving DecidableEq

/-- `OpenAIService.identify_login_elements`: an API exception or a JSON
decode failure both yield a result with `tokens_used` 0; only a parsed
response reports the tokens of the call. -/
def identify_login_elements (api : Except String (String × Nat))
    (parse : String → Except String Guidance) : ServiceResult :=
  match api with
  | .error e => ⟨false, some e, none, 0⟩
  | .ok rt =>
    match parse rt.1 with
    | .ok result => ⟨true, none, some result, rt.2⟩
    | .error e => ⟨false, some ("Invalid JSON response: " ++ e), none, 0⟩

/-- A concrete browser session with a live page handle. -/
def exSession : BrowserSession := ⟨0, 0, 0, some 0⟩

/-- A concrete guidance dict carrying a selector. -/
def okGuidance : Guidance := ⟨some "#email", some "high", some "looks right", none, none⟩

/-- Builds a concrete session state from the initial state of `main.py`. -/
def mkState (step : String) (it rc : Nat) (g : Option Guidance)
    (bs : Option BrowserSession) : CloneState :=
  { initial_state "https://example.com/login" (some "user@example.com") (some "pw") with
    current_step := step,
    iteration_count := it,
    step_retry_count := rc,
    ai_guidance := g,
    browser_session := bs }

/-- A login oracle where every browser effect succeeds. -/
def okLoginOracle : LoginOracle :=
  ⟨.ok ⟨exSession, "dom0", "css0", "https://example.com/login"⟩,
   .ok (), .ok (), .ok (),
   .ok ("dom1", "css1", "https://example.com/step"), .ok ()⟩

/-- A login oracle whose fill and fallback both raise. -/
def failingLoginOracle : LoginOracle :=
  { okLoginOracle with fill := .error "Timeout 5000ms exceeded", focusType := .error "boom" }

/-- An advisor oracle whose call parses successfully into `okGuidance`. -/
def okAIOracle : AIOracle :=
  ⟨.ok ("raw", 7), fun _ => .ok okGuidance, .ok 0, .ok "Log in"⟩

/-- Fields an advisor step must leave unchanged: target url, credentials,
captured page snapshot and browser handle. -/
def frame_ok (s t : CloneState) : Prop :=
  t.url = s.url ∧ t.email = s.email ∧ t.password = s.password ∧
  t.current_dom = s.current_dom ∧ t.current_css = s.current_css ∧
  t.current_page_url = s.current_page_url ∧ t.browser_session = s.browser_session

/-- Success bookkeeping consistency: being at the `completed` step, the
`login_successful` flag and the `logged_in` status hold together. -/
def success_consistent (s : CloneState) : Prop :=
  (s.current_step = "completed" → s.login_successful = some true ∧ s.status = "logged_in") ∧
  (s.login_successful = some true → s.current_step = "completed") ∧
  (s.status = "logged_in" → s.current_step = "completed")

/-- Constant login-oracle stream for the driving loop. -/
def constLO : Nat → LoginOracle := fun _ => okLoginOracle

/-- Constant advisor-oracle stream for the driving loop. -/
def constAO : Nat → AIOracle := fun _ => okAIOracle

/-- A login oracle whose fill raises but whose other effects succeed. -/
def fillFailLoginOracle : LoginOracle :=
  { okLoginOracle with fill := .error "Timeout 5000ms exceeded" }

/-- A login oracle whose click raises but whose other effects succeed. -/
def clickFailLoginOracle : LoginOracle :=
  { okLoginOracle with click := .error "Timeout 5000ms exceeded" }

/-- An advisor oracle whose completion arrives with a token count but whose
content is not valid JSON. -/
def badParseAIOracle : AIOracle :=
  ⟨.ok ("not json", 100), fun _ => .error "Expecting value: line 1 column 1", .ok 0, .ok "Log in"⟩

/-- A not-logged-in verdict with low confidence. -/
def lowConfGuidance : Guidance := ⟨none, some "low", some "page still loading", some false, none⟩

/-- A logged-in verdict. -/
def loggedInGuidance : Guidance := ⟨none, some "high", some "dashboard visible", some true, none⟩

/-- A not-logged-in verdict with high confidence. -/
def notLoggedInGuidance : Guidance := ⟨none, some "high", some "login form still shown", some false, none⟩

/-- An advisor oracle returning the low-confidence verdict. -/
def verifyLowAIOracle : AIOracle := ⟨.ok ("raw", 11), fun _ => .ok lowConfGuidance, .ok 1, .ok "Home"⟩

/-- An advisor oracle returning the logged-in verdict. -/
def verifyOkAIOracle : AIOracle := ⟨.ok ("raw", 13), fun _ => .ok loggedInGuidance, .ok 1, .ok "Home"⟩

/-- A session state dispatched at the iteration cap while locating the
email field. -/
def c1CexState : CloneState := mkState "find_email" 10 0 none (some exSession)

/-- A session state past the iteration cap at `verify_login`. -/
def c1WitState : CloneState := mkState "verify_login" 11 0 none none

/-- A session state about to run the `find_email` advisor step. -/
def c2CexState : CloneState := mkState "find_email" 2 0 none (some exSession)

/-- A session state at the very first dispatch. -/
def c2WitState : CloneState := mkState "init" 0 0 none none

/-- A session state reaching the iteration cap in the middle of the flow. -/
def c3CexState : CloneState := mkState "enter_password" 10 1 none (some exSession)

/-- A terminal completed session state. -/
def c3WitState : CloneState := mkState "completed" 3 0 none none

/-- A session state entering the email with two retries already consumed. -/
def c4CexState : CloneState := mkState "enter_email" 3 2 (some okGuidance) (some exSession)

/-- A session state about to click the continue button. -/
def c4WitState : CloneState := mkState "click_email_continue" 4 2 (some okGuidance) (some exSession)

/-- A session state about to run the `find_email` advisor step, for the
token-accounting counterexample. -/
def c5CexState : CloneState := mkState "find_email" 2 0 none (some exSession)

/-- A session state about to run the `find_password` advisor step. -/
def c5WitState : CloneState := mkState "find_password" 2 0 none (some exSession)

/-- A session state at `enter_email` with the retry cap consumed. -/
def c6WitState : CloneState := mkState "enter_email" 5 3 (some okGuidance) (some exSession)

/-- A session state at `enter_email` with the retry cap consumed, for the
keyboard-fallback claim. -/
def c7WitState : CloneState := mkState "enter_email" 4 3 (some okGuidance) (some exSession)

/-- A session state at `verify_login`. -/
def c8WitState : CloneState := mkState "verify_login" 8 0 none (some exSession)

/-- A session state at `enter_password` whose fill and fallback will both
raise, driving the outer exception handler. -/
def c9WitState : CloneState := mkState "enter_password" 6 0 (some okGuidance) (some exSession)

/-- Steps a `login_node` invocation can return, paired with bookkeeping
facts: status and success flag untouched, `completed` unreachable, the
iteration count bumped unless the step failed, and the retry count
unchanged, reset, or incremented from strictly below the cap. -/
def node_shape (s t : CloneState) : Prop :=
  t.status = s.status ∧ t.login_successful = s.login_successful ∧
  t.current_step ≠ "completed" ∧
  (t.current_step = "failed" ∨ t.iteration_count = s.iteration_count + 1) ∧
  (t.step_retry_count = s.step_retry_count ∨ t.step_retry_count = 0 ∨
    (s.step_retry_count < 3 ∧ t.step_retry_count = s.step_retry_count + 1))

/-- Steps an advisor invocation can move to when it changes the step. -/
def post_ai_steps : List String :=
  ["enter_email", "click_email_continue", "find_password", "enter_password",
   "click_submit", "verify_login", "failed"]

/-- Bookkeeping facts about an `openai_node` result: iteration and retry
counts untouched, and either the status and success flag are untouched, or
the verdict set the completed or the verification-failed outcome. -/
def openai_shape (s t : CloneState) : Prop :=
  t.iteration_count = s.iteration_count ∧ t.step_retry_count = s.step_retry_count ∧
  ((t.status = s.status ∧ t.login_successful = s.login_successful ∧
      (t.current_step = s.current_step ∨ t.current_step ∈ post_ai_steps)) ∨
   (t.current_step = "completed" ∧ t.login_successful = some true ∧ t.status = "logged_in") ∨
   (t.current_step = "failed" ∧ t.login_successful = some false ∧ t.status = "login_failed"))

theorem enter_email_success_shape (s : CloneState) (o : LoginOracle) (sel : String)
    (t : CloneState) (h : enter_email_success s o sel = .ok t) : node_shape s t := by
  cases hs : o.snapshot with
  | error e => simp [enter_email_success, hs] at h
  | ok d =>
    simp [enter_email_success, hs] at h
    refine ⟨?_, ?_, ?_, ?_, ?_⟩ <;> simp [← h, after_action_update]

theorem enter_password_success_shape (s : CloneState) (o : LoginOracle) (sel : String)
    (t : CloneState) (h : enter_password_success s o sel = .ok t) : node_shape s t := by
  cases hs : o.snapshot with
  | error e => simp [enter_password_success, hs] at h
  | ok d =>
    simp [enter_password_success, hs] at h
    refine ⟨?_, ?_, ?_, ?_, ?_⟩ <;> simp [← h, after_action_update]

theorem init_branch_shape (s : CloneState) (o : LoginOracle)
    (t : CloneState) (h : init_branch s o = .ok t) : node_shape s t := by
  cases hi : o.initNav with
  | error e => simp [init_branch, hi] at h
  | ok d =>
    simp [init_branch, hi] at h
    refine ⟨?_, ?_, ?_, ?_, ?_⟩ <;> simp [← h]

theorem enter_email_branch_shape (s : CloneState) (o : LoginOracle)
    (t : CloneState) (h : enter_email_branch s o = .ok t) : node_shape s t := by
  unfold enter_email_branch at h
  cases hg : guidance_selector s.ai_guidance with
  | none =>
    rw [hg] at h
    simp at h
    refine ⟨?_, ?_, ?_, ?_, ?_⟩ <;> simp [← h]
  | some sel =>
    rw [hg] at h
    cases hf : o.fill with
    | ok u =>
      rw [hf] at h
      dsimp only at h
      exact enter_email_success_shape s o sel t h
    | error m =>
      rw [hf] at h
      dsimp only at h
      by_cases hrc : s.step_retry_count < 3
      · rw [if_pos hrc] at h
        simp at h
        exact ⟨by simp [← h], by simp [← h], by simp [← h], by simp [← h],
          Or.inr (Or.inr ⟨hrc, by simp [← h]⟩)⟩
      · rw [if_neg hrc] at h
        cases hft : o.focusType with
        | ok u =>
          rw [hft] at h
          dsimp only at h
          exact enter_email_success_shape s o sel t h
        | error e2 =>
          rw [hft] at h
          simp at h
          refine ⟨?_, ?_, ?_, ?_, ?_⟩ <;> simp [← h]

theorem click_email_continue_branch_shape (s : CloneState) (o : LoginOracle)
    (t : CloneState) (h : click_email_continue_branch s o = .ok t) : node_shape s t := by
  unfold click_email_continue_branch at h
  cases hg : guidance_selector s.ai_guidance with
  | none =>
    rw [hg] at h
    simp at h
    refine ⟨?_, ?_, ?_, ?_, ?_⟩ <;> simp [← h]
  | some sel =>
    rw [hg] at h
    cases hc : o.click with
    | ok u =>
      rw [hc] at h
      dsimp only at h
      cases hs : o.snapshot with
      | error e => simp [hs] at h
      | ok d =>
        simp [hs] at h
        refine ⟨?_, ?_, ?_, ?_, ?_⟩ <;> simp [← h, after_action_update]
    | error m =>
      rw [hc] at h
      dsimp only at h
      by_cases hrc : s.step_retry_count < 3
      · rw [if_pos hrc] at h
        simp at h
        exact ⟨by simp [← h], by simp [← h], by simp [← h], by simp [← h],
          Or.inr (Or.inr ⟨hrc, by simp [← h]⟩)⟩
      · rw [if_neg hrc] at h
        simp at h
        refine ⟨?_, ?_, ?_, ?_, ?_⟩ <;> simp [← h]

theorem enter_password_branch_shape (s : CloneState) (o : LoginOracle)
    (t : CloneState) (h : enter_password_branch s o = .ok t) : node_shape s t := by
  unfold enter_password_branch at h
  cases hg : guidance_selector s.ai_guidance with
  | none =>
    rw [hg] at h
    simp at h
    refine ⟨?_, ?_, ?_, ?_, ?_⟩ <;> simp [← h]
  | some sel =>
    rw [hg] at h
    cases hf : o.fill with
    | ok u =>
      rw [hf] at h
      dsimp only at h
      exact enter_password_success_shape s o sel t h
    | error m =>
      rw [hf] at h
      dsimp only at h
      cases hft : o.focusType with
      | error e => simp [hft] at h
      | ok u =>
        rw [hft] at h
        dsimp only at h
        exact enter_password_success_shape s o sel t h

theorem click_submit_branch_shape (s : CloneState) (o : LoginOracle)
    (t : CloneState) (h : click_submit_branch s o = .ok t) : node_shape s t := by
  unfold click_submit_branch at h
  cases hg : guidance_selector s.ai_guidance with
  | none =>
    rw [hg] at h
    simp at h
    refine ⟨?_, ?_, ?_, ?_, ?_⟩ <;> simp [← h]
  | some sel =>
    rw [hg] at h
    cases hc : o.click with
    | error m =>
      rw [hc] at h
      simp at h
      refine ⟨?_, ?_, ?_, ?_, ?_⟩ <;> simp [← h]
    | ok u =>
      rw [hc] at h
      dsimp only at h
      cases hs : o.snapshot with
      | error e => simp [hs] at h
      | ok d =>
        rw [hs] at h
        dsimp only at h
        cases hsc : o.screenshot with
        | error e => simp [hsc] at h
        | ok u2 =>
          simp [hsc] at h
          refine ⟨?_, ?_, ?_, ?_, ?_⟩ <;> simp [← h, after_action_update]

theorem login_body_shape (s : CloneState) (o : LoginOracle)
    (t : CloneState) (h : login_node_body s o = .ok t) : node_shape s t := by
  unfold login_node_body at h
  split_ifs at h
  · exact init_branch_shape s o t h
  · simp at h
    refine ⟨?_, ?_, ?_, ?_, ?_⟩ <;> simp [← h, session_lost]
  · exact enter_email_branch_shape s o t h
  · exact click_email_continue_branch_shape s o t h
  · exact enter_password_branch_shape s o t h
  · exact click_submit_branch_shape s o t h
  · simp at h
    refine ⟨?_, ?_, ?_, ?_, ?_⟩ <;> simp [← h]

theorem login_node_shape (s : CloneState) (o : LoginOracle) :
    node_shape s (login_node s o) := by
  unfold login_node
  cases h : login_node_body s o with
  | ok t => exact login_body_shape s o t h
  | error e =>
    refine ⟨?_, ?_, ?_, ?_, ?_⟩ <;> simp

theorem ai_find_result_shape (s : CloneState) (o : AIOracle) (a b : String)
    (hb : b ∈ post_ai_steps) : openai_shape s (ai_find_result s o a b) := by
  unfold ai_find_result
  cases ai_call o with
  | ok gt =>
    refine ⟨by simp, by simp, Or.inl ⟨by simp, by simp, Or.inr (by simpa using hb)⟩⟩
  | error e =>
    refine ⟨by simp, by simp, Or.inl ⟨by simp, by simp, Or.inr (by simp [post_ai_steps])⟩⟩

theorem find_email_continue_result_shape (s : CloneState) (o : AIOracle) :
    openai_shape s (find_email_continue_result s o) := by
  unfold find_email_continue_result
  split
  · exact ⟨by simp, by simp, Or.inl ⟨by simp, by simp, Or.inr (by simp [post_ai_steps])⟩⟩
  · exact ai_find_result_shape s o "find_email_continue" "click_email_continue"
      (by simp [post_ai_steps])

theorem verify_login_result_shape (s : CloneState) (o : AIOracle) :
    openai_shape s (verify_login_result s o) := by
  unfold verify_login_result
  cases verify_call s o with
  | error e =>
    exact ⟨by simp, by simp, Or.inl ⟨by simp, by simp, Or.inr (by simp [post_ai_steps])⟩⟩
  | ok gt =>
    dsimp only
    split_ifs
    · exact ⟨by simp, by simp, Or.inr (Or.inl ⟨by simp, by simp, by simp⟩)⟩
    · exact ⟨by simp, by simp, Or.inl ⟨by simp, by simp, Or.inr (by simp [post_ai_steps])⟩⟩
    · exact ⟨by simp, by simp, Or.inr (Or.inr ⟨by simp, by simp, by simp⟩)⟩

theorem openai_node_shape (s : CloneState) (o : AIOracle) :
    openai_shape s (openai_node s o) := by
  unfold openai_node openai_node_body
  split_ifs
  · exact ai_find_result_shape s o "find_email" "enter_email" (by simp [post_ai_steps])
  · exact find_email_continue_result_shape s o
  · exact ai_find_result_shape s o "find_password" "enter_password" (by simp [post_ai_steps])
  · exact ai_find_result_shape s o "find_submit" "click_submit" (by simp [post_ai_steps])
  · exact verify_login_result_shape s o
  · exact ⟨by simp, by simp, Or.inl ⟨by simp, by simp, Or.inl (by simp)⟩⟩

theorem should_continue_login_not_completed (s : CloneState)
    (h : should_continue s = "login") : s.current_step ≠ "completed" := by
  unfold should_continue at h
  split_ifs at h with h1 h2 h3 h4 h5 <;> simp_all

theorem should_continue_openai_not_completed (s : CloneState)
    (h : should_continue s = "openai") : s.current_step ≠ "completed" := by
  unfold should_continue at h
  split_ifs at h with h1 h2 h3 h4 h5 <;> simp_all

theorem reachable_success_consistent (u : String) (em pw : Option String)
    (s : CloneState) (h : Reachable u em pw s) : success_consistent s := by
  induction h with
  | base =>
    refine ⟨?_, ?_, ?_⟩ <;> simp [initial_state]
  | stepLogin lo hr hg ih =>
    rename_i s'
    obtain ⟨i1, i2, i3⟩ := ih
    obtain ⟨p1, p2, p3, _, _⟩ := login_node_shape s' lo
    have hnc := should_continue_login_not_completed s' hg
    refine ⟨fun hc => absurd hc p3, fun hl => ?_, fun hs => ?_⟩
    · rw [p2] at hl
      exact absurd (i2 hl) hnc
    · rw [p1] at hs
      exact absurd (i3 hs) hnc
  | stepOpenai ao hr hg ih =>
    rename_i s'
    obtain ⟨i1, i2, i3⟩ := ih
    obtain ⟨q1, q2, tri⟩ := openai_node_shape s' ao
    have hnc := should_continue_openai_not_completed s' hg
    rcases tri with ⟨p1, p2, hstep⟩ | ⟨p1, p2, p3⟩ | ⟨p1, p2, p3⟩
    · refine ⟨fun hc => ?_, fun hl => ?_, fun hs => ?_⟩
      · rcases hstep with he | he
        · rw [hc] at he
          exact absurd he.symm hnc
        · rw [hc] at he
          simp [post_ai_steps] at he
      · rw [p2] at hl
        exact absurd (i2 hl) hnc
      · rw [p1] at hs
        exact absurd (i3 hs) hnc
    · exact ⟨fun _ => ⟨p2, p3⟩, fun _ => p1, fun _ => p1⟩
    · refine ⟨fun hc => ?_, fun hl => ?_, fun hs => ?_⟩
      · rw [hc] at p1
        simp at p1
      · rw [p2] at hl
        simp at hl
      · rw [p3] at hs
        simp at hs

theorem ai_find_result_frame (s : CloneState) (o : AIOracle) (a b : String) :
    frame_ok s (ai_find_result s o a b) := by
  unfold ai_find_result frame_ok
  cases ai_call o <;> simp

theorem find_email_continue_result_frame (s : CloneState) (o : AIOracle) :
    frame_ok s (find_email_continue_result s o) := by
  unfold find_email_continue_result
  split
  · unfold frame_ok
    simp
  · exact ai_find_result_frame s o "find_email_continue" "click_email_continue"

theorem verify_login_result_frame (s : CloneState) (o : AIOracle) :
    frame_ok s (verify_login_result s o) := by
  unfold verify_login_result frame_ok
  cases verify_call s o with
  | error e => simp
  | ok gt =>
    dsimp only
    split_ifs <;> simp

/-- C1 (counterexample): at a state that has reached the iteration cap in
the middle of the flow, the loop ends at that dispatch, but the final state
records no failure outcome at all: no failed step, no error, the status and
success flag are untouched. -/
theorem iteration_cap_silent_end_cex :
    should_continue c1CexState = "end"
  ∧ run_loop constLO constAO 5 0 c1CexState = c1CexState
  ∧ c1CexState.current_step = "find_email"
  ∧ c1CexState.error = none
  ∧ c1CexState.status = "initialized"
  ∧ c1CexState.login_successful = none := by
  decide

/-- C1 (amended): once `iteration_count` has reached 10, `should_continue`
routes to the end and the driving loop returns the state unchanged; the
iteration cap is only reported on the console, never recorded in the
state. -/
theorem iteration_cap_ends_loop_unchanged (s : CloneState)
    (lo : Nat → LoginOracle) (ao : Nat → AIOracle) (fuel k : Nat)
    (h : 10 ≤ s.iteration_count) :
    should_continue s = "end" ∧ run_loop lo ao (fuel + 1) k s = s := by
  have hend : should_continue s = "end" := by
    unfold should_continue
    rw [if_pos h]
  refine ⟨hend, ?_⟩
  simp [run_loop, hend]

/-- C1 witness at a concrete capped state. -/
theorem iteration_cap_ends_loop_unchanged_witness :
    should_continue c1WitState = "end" ∧ run_loop constLO constAO 4 0 c1WitState = c1WitState :=
  iteration_cap_ends_loop_unchanged c1WitState constLO constAO 3 0 (by decide)

/-- C2 (counterexample): the `find_email` advisor step advances the flow to
`enter_email` but returns the iteration count unchanged, not strictly
greater. -/
theorem openai_advance_keeps_iteration_cex :
    (openai_node c2CexState okAIOracle).current_step = "enter_email"
  ∧ (openai_node c2CexState okAIOracle).iteration_count = c2CexState.iteration_count
  ∧ ¬ c2CexState.iteration_count < (openai_node c2CexState okAIOracle).iteration_count := by
  decide

/-- C2 (amended): `login_node` increments `iteration_count` by exactly one
on every transition that does not fail, while `openai_node` always returns
the iteration count unchanged. -/
theorem iteration_increment_characterization (s : CloneState)
    (lo : LoginOracle) (ao : AIOracle) :
    ((login_node s lo).current_step ≠ "failed" →
      (login_node s lo).iteration_count = s.iteration_count + 1)
  ∧ (openai_node s ao).iteration_count = s.iteration_count := by
  obtain ⟨-, -, -, h4, -⟩ := login_node_shape s lo
  obtain ⟨q1, -, -⟩ := openai_node_shape s ao
  exact ⟨fun hne => h4.resolve_left hne, q1⟩

/-- C2 witness at the initial browser step. -/
theorem iteration_increment_characterization_witness :
    (login_node c2WitState okLoginOracle).iteration_count = c2WitState.iteration_count + 1 :=
  (iteration_increment_characterization c2WitState okLoginOracle okAIOracle).1 (by decide)

/-- C3 (counterexample): the loop also returns at the iteration cap, where
the current step is neither `completed` nor `failed`. -/
theorem loop_end_nonterminal_cex :
    should_continue c3CexState = "end"
  ∧ run_loop constLO constAO 3 0 c3CexState = c3CexState
  ∧ c3CexState.current_step ≠ "completed"
  ∧ c3CexState.current_step ≠ "failed" := by
  decide

/-- C3 (amended): the loop returns only at `completed`, at `failed`, at the
iteration cap, or at an unknown step; and on every reachable state the
success outcome (`login_successful` true with status `logged_in`) holds
exactly when the current step is `completed`. -/
theorem loop_end_conditions_and_success_iff (s : CloneState) (u : String)
    (em pw : Option String) (t : CloneState) :
    (should_continue s = "end" →
      s.current_step = "completed" ∨ s.current_step = "failed" ∨
      10 ≤ s.iteration_count ∨
      (s.current_step ∉ ai_steps ∧ s.current_step ∉ browser_steps))
  ∧ (Reachable u em pw t →
      (t.current_step = "completed" ↔
        t.login_successful = some true ∧ t.status = "logged_in")) := by
  constructor
  · intro h
    unfold should_continue at h
    split_ifs at h with h1 h2 h3 h4 h5
    · exact Or.inr (Or.inr (Or.inl h1))
    · exact Or.inl h2
    · exact Or.inr (Or.inl h3)
    · simp at h
    · simp at h
    · exact Or.inr (Or.inr (Or.inr ⟨h4, h5⟩))
  · intro hr
    obtain ⟨i1, i2, i3⟩ := reachable_success_consistent u em pw t hr
    exact ⟨fun hc => i1 hc, fun hl => i2 hl.1⟩

/-- C3 witness: a completed state satisfies the ending disjunction, and the
initial state satisfies the success equivalence. -/
theorem loop_end_conditions_and_success_iff_witness :
    (c3WitState.current_step = "completed" ∨ c3WitState.current_step = "failed" ∨
      10 ≤ c3WitState.iteration_count ∨
      (c3WitState.current_step ∉ ai_steps ∧ c3WitState.current_step ∉ browser_steps))
  ∧ ((initial_state "https://example.com/login" none none).current_step = "completed" ↔
      ((initial_state "https://example.com/login" none none).login_successful = some true ∧
        (initial_state "https://example.com/login" none none).status = "logged_in")) :=
  ⟨(loop_end_conditions_and_success_iff c3WitState "https://example.com/login" none none
      (initial_state "https://example.com/login" none none)).1 (by decide),
   (loop_end_conditions_and_success_iff c3WitState "https://example.com/login" none none
      (initial_state "https://example.com/login" none none)).2 Reachable.base⟩

/-- C4 (counterexample): a successful email entry with two retries already
consumed advances to `find_email_continue` but leaves `step_retry_count` at
2 instead of resetting it to 0. -/
theorem enter_email_success_no_reset_cex :
    (login_node c4CexState okLoginOracle).current_step = "find_email_continue"
  ∧ (login_node c4CexState okLoginOracle).step_retry_count = 2
  ∧ (login_node c4CexState okLoginOracle).step_retry_count ≠ 0 := by
  decide

/-- C4 (amended): `step_retry_count` is reset to 0 on the
`click_email_continue` success path only; the `enter_email` success path
leaves it unchanged; and each same-step retry routing back to the locating
step increments it by one. -/
theorem retry_count_reset_increment_rules (s : CloneState) (o : LoginOracle)
    (sel m : String) (d : String × String × String) :
    (s.current_step = "click_email_continue" → has_page s.browser_session = true →
      guidance_selector s.ai_guidance = some sel → o.click = .ok () → o.snapshot = .ok d →
      (login_node s o).step_retry_count = 0 ∧
      (login_node s o).current_step = "find_password" ∧
      (login_node s o).last_error = none)
  ∧ (s.current_step = "enter_email" → has_page s.browser_session = true →
      guidance_selector s.ai_guidance = some sel → o.fill = .ok () → o.snapshot = .ok d →
      (login_node s o).step_retry_count = s.step_retry_count ∧
      (login_node s o).current_step = "find_email_continue" ∧
      (login_node s o).last_error = s.last_error)
  ∧ (s.current_step = "enter_email" → has_page s.browser_session = true →
      guidance_selector s.ai_guidance = some sel → o.fill = .error m →
      s.step_retry_count < 3 →
      (login_node s o).current_step = "find_email" ∧
      (login_node s o).step_retry_count = s.step_retry_count + 1)
  ∧ (s.current_step = "click_email_continue" → has_page s.browser_session = true →
      guidance_selector s.ai_guidance = some sel → o.click = .error m →
      s.step_retry_count < 3 →
      (login_node s o).current_step = "find_email_continue" ∧
      (login_node s o).step_retry_count = s.step_retry_count + 1) := by
  refine ⟨?_, ?_, ?_, ?_⟩
  · intro h1 h2 h3 h4 h5
    simp [login_node, login_node_body, h1, h2, click_email_continue_branch, h3, h4, h5,
      after_action_update]
  · intro h1 h2 h3 h4 h5
    simp [login_node, login_node_body, h1, h2, enter_email_branch, enter_email_success,
      h3, h4, h5, after_action_update]
  · intro h1 h2 h3 h4 h5
    simp [login_node, login_node_body, h1, h2, enter_email_branch, h3, h4, h5]
  · intro h1 h2 h3 h4 h5
    simp [login_node, login_node_body, h1, h2, click_email_continue_branch, h3, h4, h5]

/-- C4 witness at the continue-click success path. -/
theorem retry_count_reset_increment_rules_witness :
    (login_node c4WitState okLoginOracle).step_retry_count = 0 ∧
    (login_node c4WitState okLoginOracle).current_step = "find_password" ∧
    (login_node c4WitState okLoginOracle).last_error = none :=
  (retry_count_reset_increment_rules c4WitState okLoginOracle "#email" "x"
    ("dom1", "css1", "https://example.com/step")).1 rfl rfl rfl rfl rfl

/-- C5 (counterexample): the completion arrives with a token count of 100,
but because the body is not valid JSON the running total is left unchanged
instead of being incremented; the service-level helper likewise reports 0
tokens on a parse failure. -/
theorem tokens_dropped_on_parse_failure_cex :
    badParseAIOracle.api = .ok ("not json", 100)
  ∧ (openai_node c5CexState badParseAIOracle).total_tokens_used = c5CexState.total_tokens_used
  ∧ (openai_node c5CexState badParseAIOracle).total_tokens_used ≠
      c5CexState.total_tokens_used + 100
  ∧ (openai_node c5CexState badParseAIOracle).current_step = "failed"
  ∧ (identify_login_elements badParseAIOracle.api badParseAIOracle.parse).tokens_used = 0 := by
  refine ⟨rfl, by decide, by decide, by decide, by decide⟩

/-- C5 (amended): an advisor step adds the call's token count to the
running total exactly when the completion call and the JSON parse both
succeed — regardless of the verdict the step then takes; when the call or
the parse raises, the total is returned unchanged, and the service helper
reports 0 tokens. -/
theorem tokens_accumulate_on_success_only (s : CloneState) (o : AIOracle)
    (g : Guidance) (tok : Nat) (e raw : String) :
    ((s.current_step = "find_email" ∨ s.current_step = "find_password" ∨
        s.current_step = "find_submit") →
      (ai_call o = .ok (g, tok) →
        (openai_node s o).total_tokens_used = s.total_tokens_used + tok)
      ∧ (ai_call o = .error e →
        (openai_node s o).total_tokens_used = s.total_tokens_used))
  ∧ (s.current_step = "verify_login" →
      (verify_call s o = .ok (g, tok) →
        (openai_node s o).total_tokens_used = s.total_tokens_used + tok)
      ∧ (verify_call s o = .error e →
        (openai_node s o).total_tokens_used = s.total_tokens_used))
  ∧ (o.api = .ok (raw, tok) → o.parse raw = .error e →
      (identify_login_elements o.api o.parse).tokens_used = 0) := by
  refine ⟨?_, ?_, ?_⟩
  · intro hstep
    rcases hstep with h1 | h1 | h1 <;>
      exact ⟨fun hc => by simp [openai_node, openai_node_body, h1, ai_find_result, hc],
        fun hc => by simp [openai_node, openai_node_body, h1, ai_find_result, hc]⟩
  · intro h1
    constructor
    · intro hc
      simp [openai_node, openai_node_body, h1, verify_login_result, hc]
      split_ifs <;> simp
    · intro hc
      simp [openai_node, openai_node_body, h1, verify_login_result, hc]
  · intro hapi hparse
    simp [identify_login_elements, hapi, hparse]

/-- C5 witness at a successful `find_password` advisor call. -/
theorem tokens_accumulate_on_success_only_witness :
    (openai_node c5WitState okAIOracle).total_tokens_used =
      c5WitState.total_tokens_used + 7 :=
  ((tokens_accumulate_on_success_only c5WitState okAIOracle okGuidance 7 "e" "raw").1
    (Or.inr (Or.inl rfl))).1 rfl

/-- C6: the retry count is bounded by 3 across both nodes, the retry
branches of `enter_email` and `click_email_continue` route back to the
locating step only while the count is below 3, and past the cap the next
complete failure of the step is terminal: a capped continue-click failure
fails outright, and a capped email-fill failure fails as soon as the
keyboard fallback also raises. -/
theorem step_retry_cap_enforced (s : CloneState) (lo : LoginOracle) (ao : AIOracle)
    (m e2 : String) :
    (s.step_retry_count ≤ 3 → (login_node s lo).step_retry_count ≤ 3)
  ∧ (openai_node s ao).step_retry_count = s.step_retry_count
  ∧ (s.current_step = "enter_email" → has_page s.browser_session = true →
      lo.fill = .error m →
      ((login_node s lo).current_step = "find_email" → s.step_retry_count < 3))
  ∧ (s.current_step = "click_email_continue" → has_page s.browser_session = true →
      lo.click = .error m →
      ((login_node s lo).current_step = "find_email_continue" → s.step_retry_count < 3)
      ∧ (¬ s.step_retry_count < 3 → (login_node s lo).current_step = "failed"))
  ∧ (s.current_step = "enter_email" → has_page s.browser_session = true →
      lo.fill = .error m → lo.focusType = .error e2 → ¬ s.step_retry_count < 3 →
      (login_node s lo).current_step = "failed") := by
  refine ⟨?_, ?_, ?_, ?_, ?_⟩
  · intro hb
    obtain ⟨-, -, -, -, hrc⟩ := login_node_shape s lo
    rcases hrc with h | h | ⟨h1, h2⟩ <;> omega
  · obtain ⟨-, q2, -⟩ := openai_node_shape s ao
    exact q2
  · intro h1 h2 h3 hfe
    by_cases hrc : s.step_retry_count < 3
    · exact hrc
    · exfalso
      cases hg : guidance_selector s.ai_guidance with
      | none => simp [login_node, login_node_body, h1, h2, enter_email_branch, hg] at hfe
      | some sel =>
        cases hft : lo.focusType with
        | error e =>
          simp [login_node, login_node_body, h1, h2, enter_email_branch, hg, h3, hrc,
            hft] at hfe
        | ok u =>
          cases hs : lo.snapshot with
          | error e =>
            simp [login_node, login_node_body, h1, h2, enter_email_branch, hg, h3, hrc,
              hft, enter_email_success, hs] at hfe
          | ok d =>
            simp [login_node, login_node_body, h1, h2, enter_email_branch, hg, h3, hrc,
              hft, enter_email_success, hs, after_action_update] at hfe
  · intro h1 h2 h3
    constructor
    · intro hfe
      by_cases hrc : s.step_retry_count < 3
      · exact hrc
      · exfalso
        cases hg : guidance_selector s.ai_guidance with
        | none =>
          simp [login_node, login_node_body, h1, h2, click_email_continue_branch, hg] at hfe
        | some sel =>
          simp [login_node, login_node_body, h1, h2, click_email_continue_branch, hg, h3,
            hrc] at hfe
    · intro hrc
      cases hg : guidance_selector s.ai_guidance with
      | none =>
        simp [login_node, login_node_body, h1, h2, click_email_continue_branch, hg]
      | some sel =>
        simp [login_node, login_node_body, h1, h2, click_email_continue_branch, hg, h3, hrc]
  · intro h1 h2 h3 h4 hrc
    cases hg : guidance_selector s.ai_guidance with
    | none =>
      simp [login_node, login_node_body, h1, h2, enter_email_branch, hg]
    | some sel =>
      simp [login_node, login_node_body, h1, h2, enter_email_branch, hg, h3, h4, hrc]

/-- C6 witness: a capped email-entry failure whose keyboard fallback also
raises ends in the failed step. -/
theorem step_retry_cap_enforced_witness :
    (login_node c6WitState failingLoginOracle).current_step = "failed" :=
  (step_retry_cap_enforced c6WitState failingLoginOracle okAIOracle
    "Timeout 5000ms exceeded" "boom").2.2.2.2 rfl rfl rfl rfl (by decide)

/-- C7: at `enter_email`, when the fill fails with the retry count already
at 3, the step runs the keyboard fallback: if focus-and-type succeeds the
flow still advances to `find_email_continue`, and if it raises the state
becomes `failed` with the three-attempts message. -/
theorem enter_email_keyboard_fallback (s : CloneState) (o : LoginOracle) (sel m : String)
    (hstep : s.current_step = "enter_email")
    (hpage : has_page s.browser_session = true)
    (hsel : guidance_selector s.ai_guidance = some sel)
    (hfill : o.fill = .error m)
    (hrc : s.step_retry_count = 3) :
    (∀ d, o.focusType = .ok () → o.snapshot = .ok d →
        (login_node s o).current_step = "find_email_continue") ∧
    ∀ e2, o.focusType = .error e2 →
        (login_node s o).current_step = "failed" ∧
        (login_node s o).error = some ("Failed to enter email after 3 attempts: " ++ e2) := by
  constructor
  · intro d hft hsn
    simp [login_node, login_node_body, hstep, hpage, enter_email_branch, hsel, hfill, hrc,
      hft, hsn, enter_email_success, after_action_update]
  · intro e2 hft
    simp [login_node, login_node_body, hstep, hpage, enter_email_branch, hsel, hfill, hrc,
      hft]

/-- C7 witness: the fallback also raises, so the state fails with the
three-attempts message. -/
theorem enter_email_keyboard_fallback_witness :
    (login_node c7WitState failingLoginOracle).current_step = "failed" ∧
    (login_node c7WitState failingLoginOracle).error =
      some ("Failed to enter email after 3 attempts: " ++ "boom") :=
  (enter_email_keyboard_fallback c7WitState failingLoginOracle "#email"
    "Timeout 5000ms exceeded" rfl rfl rfl rfl rfl).2 "boom" rfl

/-- C8: when the `verify_login` advisor call parses, the verdict routes the
state exactly as specified: `completed` when logged in, `verify_login`
again on a not-logged-in low-confidence verdict, `failed` otherwise. -/
theorem verify_login_verdict_routing (s : CloneState) (o : AIOracle)
    (g : Guidance) (tok : Nat)
    (hstep : s.current_step = "verify_login")
    (hcall : verify_call s o = .ok (g, tok)) :
    (g.logged_in = some true → (openai_node s o).current_step = "completed")
  ∧ (g.logged_in ≠ some true → g.confidence = some "low" →
      (openai_node s o).current_step = "verify_login")
  ∧ (g.logged_in ≠ some true → g.confidence ≠ some "low" →
      (openai_node s o).current_step = "failed") := by
  refine ⟨?_, ?_, ?_⟩
  · intro hl
    simp [openai_node, openai_node_body, hstep, verify_login_result, hcall, hl]
  · intro hl hc
    simp [openai_node, openai_node_body, hstep, verify_login_result, hcall, hl, hc]
  · intro hl hc
    simp [openai_node, openai_node_body, hstep, verify_login_result, hcall, hl, hc]

/-- C8 witness: a logged-in verdict completes the session. -/
theorem verify_login_verdict_routing_witness :
    (openai_node c8WitState verifyOkAIOracle).current_step = "completed" :=
  (verify_login_verdict_routing c8WitState verifyOkAIOracle loggedInGuidance 13
    rfl rfl).1 rfl

/-- C9: each node either returns the state its body computed or a failed
state; in particular any exception escaping the body of `login_node` or
`openai_node` is converted at the step boundary into a returned state whose
step is `failed` and whose error carries the handler's descriptive message,
and no exception propagates out of the node. -/
theorem step_boundary_exception_confinement (s : CloneState)
    (lo : LoginOracle) (ao : AIOracle) :
    (∀ e, login_node_body s lo = .error e →
      login_node s lo = { s with
        current_step := "failed",
        error := some ("Login node error: " ++ e) })
  ∧ (login_node_body s lo = .ok (login_node s lo) ∨
      (login_node s lo).current_step = "failed")
  ∧ (∀ e, openai_node_body s ao = .error e →
      openai_node s ao = { s with
        current_step := "failed",
        error := some ("AI analysis error: " ++ e) })
  ∧ (openai_node_body s ao = .ok (openai_node s ao) ∨
      (openai_node s ao).current_step = "failed") := by
  refine ⟨?_, ?_, ?_, ?_⟩
  · intro e he
    simp [login_node, he]
  · cases h : login_node_body s lo with
    | ok t =>
      left
      simp [login_node, h]
    | error e =>
      right
      simp [login_node, h]
  · intro e he
    simp [openai_node, he]
  · cases h : openai_node_body s ao with
    | ok t =>
      left
      simp [openai_node, h]
    | error e =>
      right
      simp [openai_node, h]

/-- C9 witness: a password-entry invocation whose fill and fallback both
raise makes the body propagate the exception, and the node returns the
converted failed state. -/
theorem step_boundary_exception_confinement_witness :
    login_node c9WitState failingLoginOracle = { c9WitState with
      current_step := "failed",
      error := some ("Login node error: " ++ "boom") } :=
  (step_boundary_exception_confinement c9WitState failingLoginOracle okAIOracle).1 "boom" rfl

/-- C10: an advisor step never changes the target url, the credentials, the
captured page snapshot (dom, css, page url) or the browser handle. -/
theorem openai_node_frame_preservation (s : CloneState) (o : AIOracle) :
    frame_ok s (openai_node s o) := by
  unfold openai_node openai_node_body
  split_ifs
  · exact ai_find_result_frame s o "find_email" "enter_email"
  · exact find_email_continue_result_frame s o
  · exact ai_find_result_frame s o "find_password" "enter_password"
  · exact ai_find_result_frame s o "find_submit" "click_submit"
  · exact verify_login_result_frame s o
  · unfold frame_ok
    simp
